import Mathlib

/-!
Formal model of the synchronization primitives of the CPP_POSIX_Threading
library (namespace de::Koesling::Threading): Semaphore, Mutex, Condition,
RW_Lock and Thread, together with the shared deadline helper
`pthread_timeout`.

Each C++ method is embedded as a pure Lean function over an explicit state
record.  The outcome of every native POSIX call made by a method is passed
in as a parameter (for `sem_*` functions a `fail : Bool` plus the `errno`
value, for `pthread_*` functions the returned error code, `0` = success),
since those outcomes are decided by the operating system.  Each result
record carries the returned value or thrown exception (`ret`), the object
state after the call (`state` — on a throw this is the state at the throw
site, exactly as the C++ object is left when the exception propagates), and
the list of native calls that were issued (`calls`).

The repository contains two revisions of Semaphore.cpp and Mutex.cpp.  The
primary definitions below follow the revision in src/unnamed/part_007
(Mutex.cpp) and src/unnamed/part_008 (Semaphore.cpp); the namespace `V0`
holds the methods of the other revision (src/Semaphore.cpp and the Mutex.cpp
bundled with src/Condition.cpp) at the points where the two revisions
differ.
-/

namespace Threading

/-- Modulus of C `unsigned int` (32 bit on the library's target). -/
def U32 : Nat := 2 ^ 32

/-- Modulus of C `size_t` (64 bit on the library's target). -/
def U64 : Nat := 2 ^ 64

/-- Wrapping increment of an `unsigned int` value. -/
def u32succ (a : Nat) : Nat := (a + 1) % U32

/-- Wrapping decrement of an `unsigned int` value. -/
def u32pred (a : Nat) : Nat := (a + (U32 - 1)) % U32

/-- Wrapping increment of a `size_t` value. -/
def u64succ (a : Nat) : Nat := (a + 1) % U64

/-- Wrapping decrement of a `size_t` value. -/
def u64pred (a : Nat) : Nat := (a + (U64 - 1)) % U64

/-- Linux errno value EINTR. -/
def EINTR : Nat := 4
/-- Linux errno value EAGAIN. -/
def EAGAIN : Nat := 11
/-- Linux errno value EINVAL. -/
def EINVAL : Nat := 22
/-- Linux errno value EBUSY. -/
def EBUSY : Nat := 16
/-- Linux errno value ETIMEDOUT. -/
def ETIMEDOUT : Nat := 110

/-- The distinct `std::logic_error` throw sites of the library, one
constructor per error message. -/
inductive LogicKind where
  | DoubleLock       -- Mutex.cpp: "A mutex must not be locked twice in the same thread."
  | NotLocked        -- Mutex.cpp: "Call of Mutex::unlock(), but Mutex was never locked"
  | OwnerMismatch    -- Mutex.cpp: "... mutex that the calling thread does not hold ..."
  | DoubleWait       -- Semaphore.cpp: "Double wait within one thread is not allowed."
  | NotHeld          -- Semaphore.cpp: "Releasing a semaphore which the thread does not hold ..."
  | RWNotLocked      -- RW_Lock.cpp: "Call of RW_Lock::unlock(), but RW_Lock was never locked."
  | AlreadyStarted   -- Thread.cpp: "Call of Thread::start(), but thread was started already."
  | DetachDetached   -- Thread.cpp: "... thread is not joinable or already detached."
  | DetachStopped    -- Thread.cpp: "... thread is not running." (detach)
  | JoinDetached     -- Thread.cpp: "Call of Thread::join(), but thread is detached."
  | JoinNotStarted   -- Thread.cpp: "... thread is not started or was killed"
  | CancelStopped    -- Thread.cpp: "Call of Thread::kill(), but thread is not running."
  | ZeroMaxValue     -- src/Semaphore.cpp: "... maximum value of 0 is pointless." (logic_error)
deriving DecidableEq

/-- Exceptions thrown by the library, by C++ dynamic type:
`std::logic_error` (with the throw site), `std::invalid_argument` (with a
tag for the message) and `std::system_error` (operation name and error
code, as produced by `sysexcept`). -/
inductive Err where
  | logicError (kind : LogicKind)
  | invalidArgument (what : String)
  | systemError (op : String) (code : Nat)
deriving DecidableEq

/-- C `struct timespec`. -/
structure Timespec where
  tv_sec : Int
  tv_nsec : Int
deriving DecidableEq

/-- C `struct timeval` (as filled in by `gettimeofday`). -/
structure Timeval where
  tv_sec : Int
  tv_usec : Int
deriving DecidableEq

/-- Nanoseconds per second (defines.hpp / pthread_timeout.cpp). -/
def NSEC_PER_SEC : Int := 1000000000

/-- Nanoseconds per microsecond (defines.hpp / pthread_timeout.cpp). -/
def NSEC_PER_USEC : Int := 1000

/-- Result of the deadline helper: the computed absolute deadline or the
thrown exception, plus the native calls issued. -/
structure TimeoutRes where
  ret : Except Err Timespec
  calls : List String

/-- pthread_timeout (src/pthread_timeout.cpp and src/unnamed/part_005):
validates the relative duration, reads the wall clock with `gettimeofday`
(outcome passed in as `now` / `gfail` / `gerrno`), and adds the duration to
the current time with a carry into seconds on nanosecond overflow. -/
def pthread_timeout (ts : Timespec) (now : Timeval) (gfail : Bool)
    (gerrno : Nat) : TimeoutRes :=
  if ts.tv_sec < 0 ∨ ts.tv_nsec < 0 ∨ ts.tv_nsec ≥ NSEC_PER_SEC then
    ⟨.error (.invalidArgument "invalid timespec"), []⟩
  else if gfail then
    ⟨.error (.systemError "gettimeofday" gerrno), ["gettimeofday"]⟩
  else
    let sec := ts.tv_sec + now.tv_sec
    let nsec := ts.tv_nsec + now.tv_usec * NSEC_PER_USEC
    let timeout_time : Timespec :=
      if nsec ≥ NSEC_PER_SEC then ⟨sec + 1, nsec - NSEC_PER_SEC⟩
      else ⟨sec, nsec⟩
    ⟨.ok timeout_time, ["gettimeofday"]⟩

/-- State of a `Semaphore` object (Semaphore.hpp): the per-thread holder map
`locking_threads` (an `unordered_map<pthread_t, bool>` whose `operator[]`
yields `false` for absent keys, modeled as a total function with default
`false`), the maximum value, the current value and the waiting-thread
count.  Thread identities (`pthread_t`) are modeled as `Nat`. -/
structure Semaphore where
  locking_threads : Nat → Bool
  max_value : Nat
  current_value : Nat
  thread_queue : Nat

/-- Result of a `Semaphore` method call. -/
structure SemRes (α : Type) where
  ret : Except Err α
  state : Semaphore
  calls : List String

/-- Result of the `Semaphore` constructor. -/
structure SemCtorRes where
  ret : Except Err Semaphore
  calls : List String

/-- Semaphore::Semaphore(unsigned int value) (src/unnamed/part_008 lines
45-53): throws `std::invalid_argument` if `value` is zero, before any
native call; otherwise calls `sem_init`.  The member `current_value` is not
initialized by the constructor; its indeterminate initial content is passed
in as `uninit`. -/
def Semaphore.ctor (value : Nat) (uninit : Nat) (fail : Bool) (errno : Nat) :
    SemCtorRes :=
  if value = 0 then
    ⟨.error (.invalidArgument "maximum value of 0"), []⟩
  else if fail then
    ⟨.error (.systemError "sem_init" errno), ["sem_init"]⟩
  else
    ⟨.ok ⟨fun _ => false, value, uninit, 0⟩, ["sem_init"]⟩

/-- Semaphore::wait (src/unnamed/part_008 lines 97-112, identical in
src/Semaphore.cpp lines 73-87): double-wait check, increment
`thread_queue`, blocking `sem_wait`, then on success increment
`current_value`, decrement `thread_queue` and mark the thread as holder. -/
def Semaphore.wait (s : Semaphore) (thread : Nat) (fail : Bool)
    (errno : Nat) : SemRes Unit :=
  if s.locking_threads thread then
    ⟨.error (.logicError .DoubleWait), s, []⟩
  else
    let s1 : Semaphore := { s with thread_queue := u32succ s.thread_queue }
    if fail then
      ⟨.error (.systemError "sem_wait" errno), s1, ["sem_wait"]⟩
    else
      ⟨.ok (), { s1 with
          current_value := u32succ s1.current_value,
          thread_queue := u32pred s1.thread_queue,
          locking_threads := fun t => if t = thread then true
                                      else s.locking_threads t },
        ["sem_wait"]⟩

/-- Semaphore::trywait (src/unnamed/part_008 lines 114-140, identical in
src/Semaphore.cpp lines 89-114): double-wait check, increment
`thread_queue`, then a call of the blocking function `sem_wait` (not
`sem_trywait`); a failure with errno EAGAIN is answered with `false` after
restoring `thread_queue`, any other failure with a `std::system_error`. -/
def Semaphore.trywait (s : Semaphore) (thread : Nat) (fail : Bool)
    (errno : Nat) : SemRes Bool :=
  if s.locking_threads thread then
    ⟨.error (.logicError .DoubleWait), s, []⟩
  else
    let s1 : Semaphore := { s with thread_queue := u32succ s.thread_queue }
    if fail then
      if errno = EAGAIN then
        ⟨.ok false, { s1 with thread_queue := u32pred s1.thread_queue },
          ["sem_wait"]⟩
      else
        ⟨.error (.systemError "sem_wait" errno), s1, ["sem_wait"]⟩
    else
      ⟨.ok true, { s1 with
          current_value := u32succ s1.current_value,
          thread_queue := u32pred s1.thread_queue,
          locking_threads := fun t => if t = thread then true
                                      else s.locking_threads t },
        ["sem_wait"]⟩

/-- Semaphore::timedwait (src/unnamed/part_008 lines 142-170, identical in
src/Semaphore.cpp lines 116-143): double-wait check, deadline computation
via `pthread_timeout` (before `thread_queue` is touched), increment
`thread_queue`, `sem_timedwait`; ETIMEDOUT restores `thread_queue` and
returns `false`; any other failure throws a `std::system_error` whose
operation string is "sem_wait" (sic, as in the source). -/
def Semaphore.timedwait (s : Semaphore) (thread : Nat) (time : Timespec)
    (now : Timeval) (gfail : Bool) (gerrno : Nat) (fail : Bool)
    (errno : Nat) : SemRes Bool :=
  if s.locking_threads thread then
    ⟨.error (.logicError .DoubleWait), s, []⟩
  else
    let pt := pthread_timeout time now gfail gerrno
    match pt.ret with
    | .error e => ⟨.error e, s, pt.calls⟩
    | .ok _ =>
      let s1 : Semaphore := { s with thread_queue := u32succ s.thread_queue }
      if fail then
        if errno = ETIMEDOUT then
          ⟨.ok false, { s1 with thread_queue := u32pred s1.thread_queue },
            pt.calls ++ ["sem_timedwait"]⟩
        else
          ⟨.error (.systemError "sem_wait" errno), s1,
            pt.calls ++ ["sem_timedwait"]⟩
      else
        ⟨.ok true, { s1 with
            current_value := u32succ s1.current_value,
            thread_queue := u32pred s1.thread_queue,
            locking_threads := fun t => if t = thread then true
                                        else s.locking_threads t },
          pt.calls ++ ["sem_timedwait"]⟩

/-- Semaphore::post (src/unnamed/part_008 lines 172-184): not-held check,
`sem_post`, then decrement `current_value` and clear the holder entry. -/
def Semaphore.post (s : Semaphore) (thread : Nat) (fail : Bool)
    (errno : Nat) : SemRes Unit :=
  if !(s.locking_threads thread) then
    ⟨.error (.logicError .NotHeld), s, []⟩
  else if fail then
    ⟨.error (.systemError "sem_post" errno), s, ["sem_post"]⟩
  else
    ⟨.ok (), { s with
        current_value := u32pred s.current_value,
        locking_threads := fun t => if t = thread then false
                                    else s.locking_threads t },
      ["sem_post"]⟩

namespace V0

/-- Semaphore::Semaphore(unsigned int value) (src/Semaphore.cpp lines
29-37): this revision throws `std::logic_error` — the same C++ type as the
misuse errors — for a zero maximum value, instead of
`std::invalid_argument`. -/
def Semaphore.ctor (value : Nat) (uninit : Nat) (fail : Bool)
    (errno : Nat) : SemCtorRes :=
  if value = 0 then
    ⟨.error (.logicError .ZeroMaxValue), []⟩
  else if fail then
    ⟨.error (.systemError "sem_init" errno), ["sem_init"]⟩
  else
    ⟨.ok ⟨fun _ => false, value, uninit, 0⟩, ["sem_init"]⟩

/-- Semaphore::post (src/Semaphore.cpp lines 145-157): this revision
increments `current_value` on release (line 155, `current_value++`),
whereas the revision in part_008 decrements it. -/
def Semaphore.post (s : Threading.Semaphore) (thread : Nat) (fail : Bool)
    (errno : Nat) : SemRes Unit :=
  if !(s.locking_threads thread) then
    ⟨.error (.logicError .NotHeld), s, []⟩
  else if fail then
    ⟨.error (.systemError "sem_post" errno), s, ["sem_post"]⟩
  else
    ⟨.ok (), { s with
        current_value := u32succ s.current_value,
        locking_threads := fun t => if t = thread then false
                                    else s.locking_threads t },
      ["sem_post"]⟩

end V0

/-- State of a `Mutex` object (Mutex.hpp): the id of the thread that locked
it (`volatile pthread_t lock_thread`, modeled as `Nat`) and the
availability indicator (`volatile bool locked`). -/
structure Mutex where
  lock_thread : Nat
  locked : Bool
deriving DecidableEq

/-- Result of a `Mutex` lock-side method call. -/
structure MtxRes (α : Type) where
  ret : Except Err α
  state : Mutex
  calls : List String

/-- Result of `Mutex::unlock`.  `preNative` is the object state at the
instant the native `pthread_mutex_unlock` call is issued (`none` when the
method throws before reaching the native call); it exposes the source's
clearing of `locked` before the native release. -/
structure MtxUnlockRes where
  ret : Except Err Unit
  state : Mutex
  preNative : Option Mutex
  calls : List String

/-- Mutex::lock (src/unnamed/part_007 lines 125-142, identical in the
Mutex.cpp bundled with src/Condition.cpp): double-lock check, blocking
`pthread_mutex_lock`, then record the calling thread as owner. -/
def Mutex.lock (s : Mutex) (thread : Nat) (rc : Nat) : MtxRes Unit :=
  if s.locked && (s.lock_thread == thread) then
    ⟨.error (.logicError .DoubleLock), s, []⟩
  else if rc ≠ 0 then
    ⟨.error (.systemError "pthread_mutex_lock" rc), s, ["pthread_mutex_lock"]⟩
  else
    ⟨.ok (), ⟨thread, true⟩, ["pthread_mutex_lock"]⟩

/-- Mutex::trylock (src/unnamed/part_007 lines 168-187, identical in the
Mutex.cpp bundled with src/Condition.cpp): double-lock check,
`pthread_mutex_trylock`; EBUSY yields `false`, any other failure a
`std::system_error`. -/
def Mutex.trylock (s : Mutex) (thread : Nat) (rc : Nat) : MtxRes Bool :=
  if s.locked && (s.lock_thread == thread) then
    ⟨.error (.logicError .DoubleLock), s, []⟩
  else if rc ≠ 0 then
    if rc = EBUSY then
      ⟨.ok false, s, ["pthread_mutex_trylock"]⟩
    else
      ⟨.error (.systemError "pthread_mutex_trylock" rc), s,
        ["pthread_mutex_trylock"]⟩
  else
    ⟨.ok true, ⟨thread, true⟩, ["pthread_mutex_trylock"]⟩

/-- Mutex::timedlock (src/unnamed/part_007 lines 189-209): double-lock
check, deadline computation via `pthread_timeout`, then
`pthread_mutex_timedlock`; ETIMEDOUT yields `false`, success records the
calling thread as owner. -/
def Mutex.timedlock (s : Mutex) (thread : Nat) (time : Timespec)
    (now : Timeval) (gfail : Bool) (gerrno : Nat) (rc : Nat) : MtxRes Bool :=
  if s.locked && (s.lock_thread == thread) then
    ⟨.error (.logicError .DoubleLock), s, []⟩
  else
    let pt := pthread_timeout time now gfail gerrno
    match pt.ret with
    | .error e => ⟨.error e, s, pt.calls⟩
    | .ok _ =>
      if rc ≠ 0 then
        if rc = ETIMEDOUT then
          ⟨.ok false, s, pt.calls ++ ["pthread_mutex_timedlock"]⟩
        else
          ⟨.error (.systemError "pthread_mutex_timedlock" rc), s,
            pt.calls ++ ["pthread_mutex_timedlock"]⟩
      else
        ⟨.ok true, ⟨thread, true⟩, pt.calls ++ ["pthread_mutex_timedlock"]⟩

/-- Mutex::unlock (src/unnamed/part_007 lines 144-166, identical in the
Mutex.cpp bundled with src/Condition.cpp, lines 341-363): not-locked check,
owner check, clear `locked` *before* the native `pthread_mutex_unlock`; on
a native failure set `locked` back to `true` and throw a
`std::system_error`. -/
def Mutex.unlock (s : Mutex) (thread : Nat) (rc : Nat) : MtxUnlockRes :=
  if !s.locked then
    ⟨.error (.logicError .NotLocked), s, none, []⟩
  else if thread != s.lock_thread then
    ⟨.error (.logicError .OwnerMismatch), s, none, []⟩
  else
    let s1 : Mutex := { s with locked := false }
    if rc ≠ 0 then
      ⟨.error (.systemError "pthread_mutex_unlock" rc),
        { s1 with locked := true }, some s1, ["pthread_mutex_unlock"]⟩
    else
      ⟨.ok (), s1, some s1, ["pthread_mutex_unlock"]⟩

namespace V0

/-- Mutex::timedlock of the revision bundled with src/Condition.cpp (lines
386-403 of that file): unlike `lock` and `trylock` of the same revision,
and unlike the part_007 revision, it performs no double-lock check before
the deadline computation and the native `pthread_mutex_timedlock` call. -/
def Mutex.timedlock (s : Threading.Mutex) (thread : Nat) (time : Timespec)
    (now : Timeval) (gfail : Bool) (gerrno : Nat) (rc : Nat) : MtxRes Bool :=
  let pt := pthread_timeout time now gfail gerrno
  match pt.ret with
  | .error e => ⟨.error e, s, pt.calls⟩
  | .ok _ =>
    if rc ≠ 0 then
      if rc = ETIMEDOUT then
        ⟨.ok false, s, pt.calls ++ ["pthread_mutex_timedlock"]⟩
      else
        ⟨.error (.systemError "pthread_mutex_timedlock" rc), s,
          pt.calls ++ ["pthread_mutex_timedlock"]⟩
    else
      ⟨.ok true, ⟨thread, true⟩, pt.calls ++ ["pthread_mutex_timedlock"]⟩

end V0

/-- State of an `RW_Lock` object (RW_Lock.hpp): the reader count
(`volatile size_t read_locked`) and the writer flag
(`volatile bool write_locked`). -/
structure RW_Lock where
  read_locked : Nat
  write_locked : Bool
deriving DecidableEq

/-- RW_Lock::is_locked (RW_Lock.hpp): `read_locked || write_locked`, with
the C implicit `size_t` to `bool` conversion. -/
def RW_Lock.is_locked (s : RW_Lock) : Bool :=
  (s.read_locked != 0) || s.write_locked

/-- Result of `RW_Lock::unlock`.  `preNative` is the object state at the
instant the native `pthread_rwlock_unlock` call is issued (`none` when the
method throws before reaching it). -/
structure RWUnlockRes where
  ret : Except Err Unit
  state : RW_Lock
  preNative : Option RW_Lock
  calls : List String

/-- RW_Lock::unlock (src/unnamed/part_006 lines 175-193): not-locked check;
remember whether this is a writer release (`write_locked_temp`);
speculatively clear `write_locked` or decrement `read_locked` *before* the
native `pthread_rwlock_unlock`; on a native failure restore the changed
counter and throw a `std::system_error`. -/
def RW_Lock.unlock (s : RW_Lock) (rc : Nat) : RWUnlockRes :=
  if !s.is_locked then
    ⟨.error (.logicError .RWNotLocked), s, none, []⟩
  else
    let write_locked_temp := s.write_locked
    let s1 : RW_Lock :=
      if s.write_locked then { s with write_locked := false }
      else { s with read_locked := u64pred s.read_locked }
    if rc ≠ 0 then
      let s2 : RW_Lock :=
        if write_locked_temp then { s1 with write_locked := true }
        else { s1 with read_locked := u64succ s1.read_locked }
      ⟨.error (.systemError "pthread_rwlock_unlock" rc), s2, some s1,
        ["pthread_rwlock_unlock"]⟩
    else
      ⟨.ok (), s1, some s1, ["pthread_rwlock_unlock"]⟩

/-- State of a `Condition` object (Condition.hpp): the signal indicator
(`volatile bool signal_created`), the number of threads blocked in `wait`
(`volatile size_t waiting_thread_count`) and the broadcast marker
(`volatile bool wakeup_by_brodcast`, spelled as in the source).  The
embedded `pthread_mutex_t` has no bookkeeping state of its own. -/
structure Condition where
  signal_created : Bool
  waiting_thread_count : Nat
  wakeup_by_brodcast : Bool
deriving DecidableEq

/-- Result of a `Condition` method call. -/
structure CondRes (α : Type) where
  ret : Except Err α
  state : Condition
  calls : List String

/-- Entry bookkeeping of Condition::wait (src/Condition.cpp line 94):
after taking the embedded mutex, increment `waiting_thread_count`.  The
thread then loops in `pthread_cond_wait` while `!signal_created`; during
that time other threads mutate the state under the embedded mutex. -/
def Condition.waitEnter (s : Condition) : Condition :=
  { s with waiting_thread_count := u64succ s.waiting_thread_count }

/-- Exit bookkeeping of Condition::wait (src/Condition.cpp lines 102-111),
applied to the state observed when the `while (!signal_created)` loop
exits (so `signal_created` is `true` there): decrement
`waiting_thread_count`, clear `signal_created` unless
`wakeup_by_brodcast` is set and the decremented count is still non-zero,
release the embedded mutex, and return `true` (the unbounded wait has no
other normal return). -/
def Condition.waitExit (s : Condition) : Condition × Bool :=
  let s1 : Condition :=
    { s with waiting_thread_count := u64pred s.waiting_thread_count }
  let s2 : Condition :=
    if !s1.wakeup_by_brodcast || (s1.waiting_thread_count == 0) then
      { s1 with signal_created := false }
    else s1
  (s2, true)

/-- Condition::signal (src/Condition.cpp lines 151-175): under the embedded
mutex set `signal_created` to `waiting_thread_count != 0` and
`wakeup_by_brodcast` to `false`, buffer `signal_created` as the return
value before `pthread_cond_signal` and the mutex release, and return the
buffered value.  The outcomes of the three native calls are passed in as
`lockRc`, `sigRc`, `unlockRc` (0 = success). -/
def Condition.signal (s : Condition) (lockRc sigRc unlockRc : Nat) :
    CondRes Bool :=
  if lockRc ≠ 0 then
    ⟨.error (.systemError "pthread_mutex_lock" lockRc), s,
      ["pthread_mutex_lock"]⟩
  else
    let s1 : Condition := { s with
        signal_created := s.waiting_thread_count != 0,
        wakeup_by_brodcast := false }
    let ret_val := s1.signal_created
    if sigRc ≠ 0 then
      ⟨.error (.systemError "pthread_cond_signal" sigRc), s1,
        ["pthread_mutex_lock", "pthread_cond_signal"]⟩
    else if unlockRc ≠ 0 then
      ⟨.error (.systemError "pthread_mutex_unlock" unlockRc), s1,
        ["pthread_mutex_lock", "pthread_cond_signal", "pthread_mutex_unlock"]⟩
    else
      ⟨.ok ret_val, s1,
        ["pthread_mutex_lock", "pthread_cond_signal", "pthread_mutex_unlock"]⟩

/-- Condition::broadcast (src/Condition.cpp lines 177-201): same as
`signal` but sets `wakeup_by_brodcast` to `true` and wakes all waiters
with `pthread_cond_broadcast`; the return value follows the same
capture-before-unlock rule. -/
def Condition.broadcast (s : Condition) (lockRc sigRc unlockRc : Nat) :
    CondRes Bool :=
  if lockRc ≠ 0 then
    ⟨.error (.systemError "pthread_mutex_lock" lockRc), s,
      ["pthread_mutex_lock"]⟩
  else
    let s1 : Condition := { s with
        signal_created := s.waiting_thread_count != 0,
        wakeup_by_brodcast := true }
    let ret_val := s1.signal_created
    if sigRc ≠ 0 then
      ⟨.error (.systemError "pthread_cond_broadcast" sigRc), s1,
        ["pthread_mutex_lock", "pthread_cond_broadcast"]⟩
    else if unlockRc ≠ 0 then
      ⟨.error (.systemError "pthread_mutex_unlock" unlockRc), s1,
        ["pthread_mutex_lock", "pthread_cond_broadcast",
          "pthread_mutex_unlock"]⟩
    else
      ⟨.ok ret_val, s1,
        ["pthread_mutex_lock", "pthread_cond_broadcast",
          "pthread_mutex_unlock"]⟩

/-- Detach state of a `Thread` (Thread.hpp `enum detachstate_t`). -/
inductive Detachstate where
  | JOINABLE
  | DETACHED
deriving DecidableEq

/-- State of a `Thread` object (Thread.hpp), restricted to the join state
machine: the running flag and the detach state. -/
structure Thread where
  running : Bool
  detachstate : Detachstate
deriving DecidableEq

/-- Result of a `Thread` method call. -/
structure ThRes (α : Type) where
  ret : Except Err α
  state : Thread
  calls : List String

/-- Thread::join (src/Thread.cpp lines 185-198): detached check, running
check, blocking `pthread_join`; on success clear `running`.  The native
thread's exit value is `exitVal`; `want` tells whether the caller passed a
non-null `return_value` pointer, in which case the exit value is handed
out. -/
def Thread.join (s : Thread) (want : Bool) (exitVal : Nat) (rc : Nat) :
    ThRes (Option Nat) :=
  if s.detachstate == .DETACHED then
    ⟨.error (.logicError .JoinDetached), s, []⟩
  else if !s.running then
    ⟨.error (.logicError .JoinNotStarted), s, []⟩
  else if rc ≠ 0 then
    ⟨.error (.systemError "pthread_join" rc), s, ["pthread_join"]⟩
  else
    ⟨.ok (if want then some exitVal else none),
      { s with running := false }, ["pthread_join"]⟩

/-- Thread::try_join (src/Thread.cpp lines 200-218): detached check,
running check, non-blocking `pthread_tryjoin_np`; EBUSY yields `false`
(nothing written through the pointer), success clears `running` and yields
`true` together with the exit value if requested. -/
def Thread.try_join (s : Thread) (want : Bool) (exitVal : Nat) (rc : Nat) :
    ThRes (Bool × Option Nat) :=
  if s.detachstate == .DETACHED then
    ⟨.error (.logicError .JoinDetached), s, []⟩
  else if !s.running then
    ⟨.error (.logicError .JoinNotStarted), s, []⟩
  else if rc ≠ 0 then
    if rc = EBUSY then
      ⟨.ok (false, none), s, ["pthread_tryjoin_np"]⟩
    else
      ⟨.error (.systemError "pthread_tryjoin_np" rc), s,
        ["pthread_tryjoin_np"]⟩
  else
    ⟨.ok (true, if want then some exitVal else none),
      { s with running := false }, ["pthread_tryjoin_np"]⟩

/-- Thread::timed_join (src/Thread.cpp lines 220-258): detached check,
running check, timespec validation (`std::invalid_argument`),
`gettimeofday` (failure gives a `std::system_error`), inline deadline
computation with nanosecond carry, then `pthread_timedjoin_np`; ETIMEDOUT
yields `false`, success clears `running`.  The operation string of a
native-join `std::system_error` is "pthread_tryjoin_np" (sic, as in line
253 of the source). -/
def Thread.timed_join (s : Thread) (want : Bool) (exitVal : Nat)
    (time : Timespec) (now : Timeval) (gfail : Bool) (gerrno : Nat)
    (rc : Nat) : ThRes (Bool × Option Nat) :=
  if s.detachstate == .DETACHED then
    ⟨.error (.logicError .JoinDetached), s, []⟩
  else if !s.running then
    ⟨.error (.logicError .JoinNotStarted), s, []⟩
  else if time.tv_sec < 0 ∨ time.tv_nsec < 0 ∨ time.tv_nsec ≥ NSEC_PER_SEC
  then
    ⟨.error (.invalidArgument "invalid timespec"), s, []⟩
  else if gfail then
    ⟨.error (.systemError "gettimeofday" gerrno), s, ["gettimeofday"]⟩
  else
    let nsec := time.tv_nsec + now.tv_usec * NSEC_PER_USEC
    let _timeout_time : Timespec :=
      if nsec ≥ NSEC_PER_SEC then
        ⟨time.tv_sec + now.tv_sec + 1, nsec - NSEC_PER_SEC⟩
      else ⟨time.tv_sec + now.tv_sec, nsec⟩
    if rc ≠ 0 then
      if rc = ETIMEDOUT then
        ⟨.ok (false, none), s, ["gettimeofday", "pthread_timedjoin_np"]⟩
      else
        ⟨.error (.systemError "pthread_tryjoin_np" rc), s,
          ["gettimeofday", "pthread_timedjoin_np"]⟩
    else
      ⟨.ok (true, if want then some exitVal else none),
        { s with running := false },
        ["gettimeofday", "pthread_timedjoin_np"]⟩

/-- Concrete semaphore state for witnesses: capacity 1, one permit held by
thread 7, nobody queued. -/
def demoSem : Semaphore := ⟨fun t => t == 7, 1, 1, 0⟩

/-- Concrete semaphore state for witnesses: capacity 1, nothing held. -/
def freshSem : Semaphore := ⟨fun _ => false, 1, 0, 0⟩

/-- Concrete valid relative duration for witnesses: one second. -/
def t0 : Timespec := ⟨1, 0⟩

/-- Concrete wall-clock reading for witnesses. -/
def now0 : Timeval := ⟨100, 5⟩

theorem u32succ_eq {a : Nat} (h : a + 1 < U32) : u32succ a = a + 1 := by
  simp only [u32succ, U32] at *
  omega

theorem u32pred_eq {a : Nat} (h1 : 0 < a) (h2 : a < U32) :
    u32pred a = a - 1 := by
  simp only [u32pred, U32] at *
  omega

theorem u32pred_u32succ {a : Nat} (h : a < U32) : u32pred (u32succ a) = a := by
  simp only [u32succ, u32pred, U32] at *
  omega

theorem u64succ_eq {a : Nat} (h : a + 1 < U64) : u64succ a = a + 1 := by
  simp only [u64succ, U64] at *
  omega

theorem u64pred_eq {a : Nat} (h1 : 0 < a) (h2 : a < U64) :
    u64pred a = a - 1 := by
  simp only [u64pred, U64] at *
  omega

theorem u64succ_u64pred {a : Nat} (h1 : 0 < a) (h2 : a < U64) :
    u64succ (u64pred a) = a := by
  simp only [u64succ, u64pred, U64] at *
  omega

/-- C1: for every Counting Permit and every caller whose holder-set entry
is true, release (`Semaphore::post`) performs the native `sem_post`,
decrements `current_value` by one and clears the caller's holder-set
entry; release by a caller whose entry is not true throws NotHeld and
changes no state and issues no native call.  This is the behavior of the
part_008 revision; the src/Semaphore.cpp revision instead increments
`current_value` on release: evaluated on a held one-permit semaphore
(max_value 1, current_value 1) a successful release there leaves
current_value = 2. -/
theorem C1_sem_post_release (s : Semaphore) (thread : Nat) (fail : Bool)
    (errno : Nat) (h1 : 0 < s.current_value) (h2 : s.current_value < U32) :
    (s.locking_threads thread = true → fail = false →
      (Semaphore.post s thread fail errno).ret = .ok () ∧
      (Semaphore.post s thread fail errno).calls = ["sem_post"] ∧
      (Semaphore.post s thread fail errno).state.current_value
        = s.current_value - 1 ∧
      (Semaphore.post s thread fail errno).state.locking_threads thread
        = false ∧
      (Semaphore.post s thread fail errno).state.max_value = s.max_value ∧
      (Semaphore.post s thread fail errno).state.thread_queue
        = s.thread_queue) ∧
    (s.locking_threads thread = false →
      Semaphore.post s thread fail errno
        = ⟨.error (.logicError .NotHeld), s, []⟩) ∧
    ((V0.Semaphore.post demoSem 7 false 0).state.current_value = 2 ∧
      demoSem.max_value = 1 ∧ demoSem.current_value = 1 ∧
      demoSem.locking_threads 7 = true) := by
  refine ⟨?_, ?_, ?_⟩
  · intro hold hf
    subst hf
    simp [Semaphore.post, hold, u32pred_eq h1 h2]
  · intro hfree
    simp [Semaphore.post, hfree]
  · refine ⟨?_, rfl, rfl, rfl⟩
    simp [V0.Semaphore.post, demoSem, u32succ, U32]

theorem C1_sem_post_release_witness :
    (0 < demoSem.current_value ∧ demoSem.current_value < U32) ∧
    ((Semaphore.post demoSem 7 false 0).ret = .ok () ∧
      (Semaphore.post demoSem 7 false 0).state.current_value = 0 ∧
      (Semaphore.post demoSem 7 false 0).state.locking_threads 7 = false) :=
  ⟨⟨by decide, by decide⟩,
    by
      have h := (C1_sem_post_release demoSem 7 false 0 (by decide)
        (by decide)).1 rfl rfl
      exact ⟨h.1, h.2.2.1, h.2.2.2.1⟩⟩

/-- C2: the spec claims try_acquire (`Semaphore::trywait`) on an exhausted
permit returns false immediately without blocking, with SystemError
reserved for genuine OS failure.  In the code, trywait issues the blocking
`sem_wait` (not `sem_trywait`); since `sem_wait` never fails with EAGAIN,
the return-false branch is unreachable: under `sem_wait`'s POSIX outcomes
(success after possibly blocking, or failure with errno EINTR or EINVAL,
supplied as the hypothesis) the call either returns true or throws a
`std::system_error` — never false. -/
theorem C2_trywait_contention (s : Semaphore) (thread errno : Nat)
    (hfree : s.locking_threads thread = false)
    (hposix : errno = EINTR ∨ errno = EINVAL) :
    (∀ (fail : Bool) (e : Nat),
      (Semaphore.trywait s thread fail e).calls = ["sem_wait"]) ∧
    (∀ (fail : Bool) (e : Nat), e ≠ EAGAIN →
      (Semaphore.trywait s thread fail e).ret ≠ .ok false) ∧
    (Semaphore.trywait s thread false 0).ret = .ok true ∧
    (Semaphore.trywait s thread true errno).ret
      = .error (.systemError "sem_wait" errno) := by
  refine ⟨?_, ?_, ?_, ?_⟩
  · intro fail e
    cases fail <;> simp [Semaphore.trywait, hfree] <;>
      by_cases he : e = EAGAIN <;> simp [he]
  · intro fail e he
    cases fail <;> simp [Semaphore.trywait, hfree, he]
  · simp [Semaphore.trywait, hfree]
  · have hne : errno ≠ EAGAIN := by
      rcases hposix with h | h <;> subst h <;> decide
    simp [Semaphore.trywait, hfree, hne]

theorem C2_trywait_contention_witness :
    (freshSem.locking_threads 7 = false ∧
      (EINTR = EINTR ∨ EINTR = EINVAL)) ∧
    ((Semaphore.trywait freshSem 7 true EINTR).ret
        = .error (.systemError "sem_wait" EINTR) ∧
      (Semaphore.trywait freshSem 7 true EINTR).calls = ["sem_wait"] ∧
      (Semaphore.trywait freshSem 7 false 0).ret = .ok true) :=
  ⟨⟨rfl, .inl rfl⟩,
    by
      have h := C2_trywait_contention freshSem 7 EINTR rfl (.inl rfl)
      exact ⟨h.2.2.2, h.1 true EINTR, h.2.2.1⟩⟩

/-- C3: for a calling thread that already owns the lock, timed_lock
(`Mutex::timedlock`) of the part_007 revision performs the same double-lock
check as `lock` and `trylock` and throws DoubleLock; otherwise it returns
false on expiry and true (recording the caller as owner) on success.  The
revision bundled with src/Condition.cpp omits the check: on a self-locked
mutex it proceeds to the native call and, on expiry, returns false instead
of throwing DoubleLock. -/
theorem C3_timedlock_double_lock (s : Mutex) (thread : Nat)
    (time : Timespec) (now : Timeval) (rc : Nat)
    (hvalid : 0 ≤ time.tv_sec ∧ 0 ≤ time.tv_nsec ∧
      time.tv_nsec < NSEC_PER_SEC) :
    (s.locked = true → s.lock_thread = thread →
      Mutex.timedlock s thread time now false 0 rc
          = ⟨.error (.logicError .DoubleLock), s, []⟩ ∧
      (Mutex.lock s thread rc).ret = .error (.logicError .DoubleLock) ∧
      (Mutex.trylock s thread rc).ret = .error (.logicError .DoubleLock)) ∧
    (¬(s.locked = true ∧ s.lock_thread = thread) →
      (Mutex.timedlock s thread time now false 0 ETIMEDOUT).ret
          = .ok false ∧
      (Mutex.timedlock s thread time now false 0 ETIMEDOUT).state = s ∧
      (Mutex.timedlock s thread time now false 0 0).ret = .ok true ∧
      (Mutex.timedlock s thread time now false 0 0).state = ⟨thread, true⟩) ∧
    ((V0.Mutex.timedlock ⟨7, true⟩ 7 time now false 0 ETIMEDOUT).ret
        = .ok false ∧
      (V0.Mutex.timedlock ⟨7, true⟩ 7 time now false 0 ETIMEDOUT).state
        = ⟨7, true⟩) := by
  have hv : ¬(time.tv_sec < 0 ∨ time.tv_nsec < 0 ∨
      time.tv_nsec ≥ NSEC_PER_SEC) := by
    simp only [NSEC_PER_SEC] at *
    omega
  refine ⟨?_, ?_, ?_⟩
  · intro hl ht
    simp [Mutex.timedlock, Mutex.lock, Mutex.trylock, hl, ht]
  · intro hn
    have hb : (s.locked && (s.lock_thread == thread)) = false := by
      cases hlk : s.locked <;> simp_all
    simp [Mutex.timedlock, hb, pthread_timeout, hv, ETIMEDOUT]
  · simp [V0.Mutex.timedlock, pthread_timeout, hv, ETIMEDOUT]

theorem C3_timedlock_double_lock_witness :
    (0 ≤ t0.tv_sec ∧ 0 ≤ t0.tv_nsec ∧ t0.tv_nsec < NSEC_PER_SEC) ∧
    ((Mutex.timedlock ⟨7, true⟩ 7 t0 now0 false 0 110
        = ⟨.error (.logicError .DoubleLock), ⟨7, true⟩, []⟩) ∧
      (V0.Mutex.timedlock ⟨7, true⟩ 7 t0 now0 false 0 ETIMEDOUT).ret
        = .ok false) :=
  ⟨⟨by decide, by decide, by decide⟩,
    by
      have h := C3_timedlock_double_lock ⟨7, true⟩ 7 t0 now0 110
        ⟨by decide, by decide, by decide⟩
      exact ⟨(h.1 rfl rfl).1, h.2.2.1⟩⟩

/-- C4: constructing a Counting Permit with max_value = 0 fails before any
native call; in the part_008 revision the exception is
`std::invalid_argument` (the malformed-input kind, distinct from the
`std::logic_error` misuse family), and construction with max_value > 0
succeeds (given a successful `sem_init`).  The src/Semaphore.cpp revision
instead throws `std::logic_error` for the zero value — the same C++ type
as the misuse errors. -/
theorem C4_ctor_zero_value (value uninit errno : Nat) (hv : 0 < value) :
    (∀ (u e : Nat) (f : Bool),
      Semaphore.ctor 0 u f e
        = ⟨.error (.invalidArgument "maximum value of 0"), []⟩) ∧
    (Semaphore.ctor value uninit false errno
      = ⟨.ok ⟨fun _ => false, value, uninit, 0⟩, ["sem_init"]⟩) ∧
    (∀ (u e : Nat) (f : Bool),
      V0.Semaphore.ctor 0 u f e
        = ⟨.error (.logicError .ZeroMaxValue), []⟩) := by
  have hnz : value ≠ 0 := by omega
  refine ⟨?_, ?_, ?_⟩
  · intro u e f
    simp [Semaphore.ctor]
  · simp [Semaphore.ctor, hnz]
  · intro u e f
    simp [V0.Semaphore.ctor]

theorem C4_ctor_zero_value_witness :
    0 < 1 ∧
    (Semaphore.ctor 0 3 true 5
        = ⟨.error (.invalidArgument "maximum value of 0"), []⟩ ∧
      Semaphore.ctor 1 0 false 0
        = ⟨.ok ⟨fun _ => false, 1, 0, 0⟩, ["sem_init"]⟩ ∧
      V0.Semaphore.ctor 0 3 true 5
        = ⟨.error (.logicError .ZeroMaxValue), []⟩) :=
  ⟨by decide,
    by
      have h := C4_ctor_zero_value 1 0 0 (by decide)
      exact ⟨h.1 3 5 true, h.2.1, h.2.2 3 5 true⟩⟩

/-- C5: Exclusive Lock unlock (`Mutex::unlock`): throws NotLocked when the
lock is unlocked, OwnerMismatch when the caller is not the recorded owner;
on the owner's call it clears `locked` before issuing the native release
(visible in `preNative`), and if the native release fails it restores
`locked` and throws a `std::system_error` — so on every failure the final
state equals the state before the call. -/
theorem C5_mutex_unlock (s : Mutex) (thread : Nat) (rc : Nat) :
    (s.locked = false →
      Mutex.unlock s thread rc
        = ⟨.error (.logicError .NotLocked), s, none, []⟩) ∧
    (s.locked = true → thread ≠ s.lock_thread →
      Mutex.unlock s thread rc
        = ⟨.error (.logicError .OwnerMismatch), s, none, []⟩) ∧
    (s.locked = true → thread = s.lock_thread →
      (Mutex.unlock s thread rc).preNative
          = some { s with locked := false } ∧
      (Mutex.unlock s thread rc).calls = ["pthread_mutex_unlock"] ∧
      (rc = 0 → (Mutex.unlock s thread rc).ret = .ok () ∧
        (Mutex.unlock s thread rc).state = { s with locked := false }) ∧
      (rc ≠ 0 → (Mutex.unlock s thread rc).ret
          = .error (.systemError "pthread_mutex_unlock" rc) ∧
        (Mutex.unlock s thread rc).state = s)) := by
  refine ⟨?_, ?_, ?_⟩
  · intro hul
    simp [Mutex.unlock, hul]
  · intro hl hne
    simp [Mutex.unlock, hl, hne]
  · intro hl hown
    obtain ⟨lt, lk⟩ := s
    simp only [Mutex.locked] at hl
    subst hl
    simp only [Mutex.lock_thread] at hown
    subst hown
    refine ⟨?_, ?_, ?_, ?_⟩ <;> by_cases hrc : rc = 0 <;>
      simp [Mutex.unlock, hrc]

theorem C5_mutex_unlock_witness :
    ((Mutex.unlock ⟨7, true⟩ 7 5).ret
        = .error (.systemError "pthread_mutex_unlock" 5) ∧
      (Mutex.unlock ⟨7, true⟩ 7 5).state = ⟨7, true⟩) ∧
    (Mutex.unlock ⟨7, true⟩ 7 5).preNative = some ⟨7, false⟩ :=
  by
    have h := (C5_mutex_unlock ⟨7, true⟩ 7 5).2.2 rfl rfl
    exact ⟨h.2.2.2 (by decide), h.1⟩

/-- C6: Condition wait exit bookkeeping: once the signal-pending predicate
is true (the condition under which the `while (!signal_created)` loop of
`Condition::wait` exits), the waiter decrements `waiting_thread_count` and
clears `signal_created` unless `wakeup_by_brodcast` is set and the count
is still non-zero — so a broadcast's pending flag is cleared exactly by
its last waiter — and the unbounded wait returns true. -/
theorem C6_condition_wait_exit (s : Condition)
    (hsig : s.signal_created = true)
    (hpos : 0 < s.waiting_thread_count)
    (hlt : s.waiting_thread_count < U64) :
    (Condition.waitExit s).1.waiting_thread_count
        = s.waiting_thread_count - 1 ∧
    ((Condition.waitExit s).1.signal_created = true ↔
      (s.wakeup_by_brodcast = true ∧ s.waiting_thread_count - 1 ≠ 0)) ∧
    (Condition.waitExit s).2 = true := by
  have hp := u64pred_eq hpos hlt
  refine ⟨?_, ?_, rfl⟩
  · simp only [Condition.waitExit, hp]
    split <;> rfl
  · simp only [Condition.waitExit, hp]
    cases hb : s.wakeup_by_brodcast <;>
      by_cases hz : s.waiting_thread_count - 1 = 0 <;>
      simp [hb, hz, hsig]

theorem C6_condition_wait_exit_witness :
    ((Condition.mk true 1 true).signal_created = true) ∧
    (0 < (Condition.mk true 1 true).waiting_thread_count ∧
      (Condition.mk true 1 true).waiting_thread_count < U64) ∧
    ((Condition.waitExit ⟨true, 1, true⟩).1.waiting_thread_count = 0 ∧
      (Condition.waitExit ⟨true, 1, true⟩).1.signal_created = false ∧
      (Condition.waitExit ⟨true, 1, true⟩).2 = true) :=
  ⟨rfl, ⟨by decide, by decide⟩,
    by
      have h := C6_condition_wait_exit ⟨true, 1, true⟩ rfl (by decide)
        (by decide)
      refine ⟨h.1, ?_, h.2.2⟩
      have h2 := h.2.1
      simp at h2
      simpa using h2⟩

/-- C7: Condition signal (`Condition::signal`): under the embedded lock it
sets `signal_created` to `waiting_thread_count != 0` and
`wakeup_by_brodcast` to false, captures that value before releasing the
lock and returns it — the call returns true iff at least one waiter was
blocked at the time of the call; `Condition::broadcast` follows the same
capture-before-unlock rule with `wakeup_by_brodcast` set to true. -/
theorem C7_signal_reports_waiters (s : Condition) :
    ((Condition.signal s 0 0 0).ret = .ok true ↔
      s.waiting_thread_count ≠ 0) ∧
    (Condition.signal s 0 0 0).ret = .ok (s.waiting_thread_count != 0) ∧
    (Condition.signal s 0 0 0).state.signal_created
        = (s.waiting_thread_count != 0) ∧
    (Condition.signal s 0 0 0).state.wakeup_by_brodcast = false ∧
    (Condition.signal s 0 0 0).state.waiting_thread_count
        = s.waiting_thread_count ∧
    ((Condition.broadcast s 0 0 0).ret = .ok true ↔
      s.waiting_thread_count ≠ 0) ∧
    (Condition.broadcast s 0 0 0).ret = .ok (s.waiting_thread_count != 0) ∧
    (Condition.broadcast s 0 0 0).state.signal_created
        = (s.waiting_thread_count != 0) ∧
    (Condition.broadcast s 0 0 0).state.wakeup_by_brodcast = true ∧
    (Condition.broadcast s 0 0 0).state.waiting_thread_count
        = s.waiting_thread_count := by
  refine ⟨?_, ?_, ?_, ?_, ?_, ?_, ?_, ?_, ?_, ?_⟩ <;>
    simp [Condition.signal, Condition.broadcast]

theorem C7_signal_reports_waiters_witness :
    (Condition.signal ⟨false, 3, false⟩ 0 0 0).ret = .ok true ∧
    (Condition.signal ⟨false, 0, false⟩ 0 0 0).ret = .ok false :=
  ⟨(C7_signal_reports_waiters ⟨false, 3, false⟩).1.mpr (by decide),
    by
      have h := (C7_signal_reports_waiters ⟨false, 0, false⟩).2.1
      simpa using h⟩

/-- C8: Shared/Exclusive Lock unlock (`RW_Lock::unlock`): throws NotLocked
when neither readers nor a writer hold the lock; otherwise treats the
unlock as a writer release exactly when `write_locked` is true,
speculatively clears `write_locked` (resp. decrements `read_locked`)
before the native `pthread_rwlock_unlock` (visible in `preNative`), and
on a native failure restores that counter and throws a
`std::system_error`. -/
theorem C8_rwlock_unlock (s : RW_Lock) (rc : Nat)
    (hlt : s.read_locked < U64) :
    (s.is_locked = false →
      RW_Lock.unlock s rc
        = ⟨.error (.logicError .RWNotLocked), s, none, []⟩) ∧
    (s.write_locked = true →
      (RW_Lock.unlock s rc).preNative
          = some { s with write_locked := false } ∧
      (rc = 0 → (RW_Lock.unlock s rc).ret = .ok () ∧
        (RW_Lock.unlock s rc).state = { s with write_locked := false }) ∧
      (rc ≠ 0 → (RW_Lock.unlock s rc).ret
          = .error (.systemError "pthread_rwlock_unlock" rc) ∧
        (RW_Lock.unlock s rc).state = s)) ∧
    (s.write_locked = false → 0 < s.read_locked →
      (RW_Lock.unlock s rc).preNative
          = some { s with read_locked := s.read_locked - 1 } ∧
      (rc = 0 → (RW_Lock.unlock s rc).ret = .ok () ∧
        (RW_Lock.unlock s rc).state
          = { s with read_locked := s.read_locked - 1 }) ∧
      (rc ≠ 0 → (RW_Lock.unlock s rc).ret
          = .error (.systemError "pthread_rwlock_unlock" rc) ∧
        (RW_Lock.unlock s rc).state = s)) := by
  refine ⟨?_, ?_, ?_⟩
  · intro hul
    simp [RW_Lock.unlock, hul]
  · intro hw
    have hlk : s.is_locked = true := by
      simp [RW_Lock.is_locked, hw]
    obtain ⟨rd, wr⟩ := s
    simp only [RW_Lock.write_locked] at hw
    subst hw
    refine ⟨?_, ?_, ?_⟩ <;> by_cases hrc : rc = 0 <;>
      simp [RW_Lock.unlock, hlk, hrc]
  · intro hw hpos
    have hlk : s.is_locked = true := by
      simp only [RW_Lock.is_locked, Bool.or_eq_true, ne_eq, bne_iff_ne]
      left
      omega
    have hp := u64pred_eq hpos hlt
    have hsp := u64succ_u64pred hpos hlt
    rw [hp] at hsp
    obtain ⟨rd, wr⟩ := s
    simp only [RW_Lock.write_locked] at hw
    subst hw
    simp only [RW_Lock.read_locked] at hp hsp hpos hlt
    refine ⟨?_, ?_, ?_⟩ <;> by_cases hrc : rc = 0 <;>
      simp [RW_Lock.unlock, hlk, hp, hrc, hsp]

theorem C8_rwlock_unlock_witness :
    ((3 : Nat) < U64) ∧
    ((RW_Lock.unlock ⟨3, false⟩ 5).ret
        = .error (.systemError "pthread_rwlock_unlock" 5) ∧
      (RW_Lock.unlock ⟨3, false⟩ 5).state = ⟨3, false⟩ ∧
      (RW_Lock.unlock ⟨3, false⟩ 5).preNative = some ⟨2, false⟩ ∧
      (RW_Lock.unlock ⟨0, true⟩ 0).state = ⟨0, false⟩) :=
  ⟨by decide,
    by
      have h := (C8_rwlock_unlock ⟨3, false⟩ 5 (by decide)).2.2 rfl
        (by decide)
      have h2 := ((C8_rwlock_unlock ⟨0, true⟩ 0 (by decide)).2.1 rfl).2.1
        rfl
      exact ⟨(h.2.2 (by decide)).1, (h.2.2 (by decide)).2, h.1, h2.2⟩⟩

/-- C9: Unit of Execution join state machine: `join`, `try_join` and
`timed_join` each throw Detached on a detached unit and NotRunning when
never started or already finished (so a second `join` throws NotRunning);
`try_join` returns false without blocking while the unit still runs (its
native call is the non-blocking `pthread_tryjoin_np`), `timed_join`
returns false on expiry, and all three on success set `running` to false
and yield the unit's exit value when a return slot was passed. -/
theorem C9_join_state_machine (s : Thread) (want : Bool) (ev : Nat)
    (time : Timespec) (now : Timeval) (rc : Nat)
    (hvalid : 0 ≤ time.tv_sec ∧ 0 ≤ time.tv_nsec ∧
      time.tv_nsec < NSEC_PER_SEC) :
    (s.detachstate = .DETACHED →
      Thread.join s want ev rc
          = ⟨.error (.logicError .JoinDetached), s, []⟩ ∧
      Thread.try_join s want ev rc
          = ⟨.error (.logicError .JoinDetached), s, []⟩ ∧
      Thread.timed_join s want ev time now false 0 rc
          = ⟨.error (.logicError .JoinDetached), s, []⟩) ∧
    (s.detachstate = .JOINABLE → s.running = false →
      Thread.join s want ev rc
          = ⟨.error (.logicError .JoinNotStarted), s, []⟩ ∧
      Thread.try_join s want ev rc
          = ⟨.error (.logicError .JoinNotStarted), s, []⟩ ∧
      Thread.timed_join s want ev time now false 0 rc
          = ⟨.error (.logicError .JoinNotStarted), s, []⟩) ∧
    (s.detachstate = .JOINABLE → s.running = true →
      (Thread.join s want ev 0).ret = .ok (if want then some ev else none) ∧
      (Thread.join s want ev 0).state.running = false ∧
      (Thread.try_join s want ev EBUSY).ret = .ok (false, none) ∧
      (Thread.try_join s want ev EBUSY).state = s ∧
      (Thread.try_join s want ev EBUSY).calls = ["pthread_tryjoin_np"] ∧
      (Thread.try_join s want ev 0).ret
          = .ok (true, if want then some ev else none) ∧
      (Thread.try_join s want ev 0).state.running = false ∧
      (Thread.timed_join s want ev time now false 0 ETIMEDOUT).ret
          = .ok (false, none) ∧
      (Thread.timed_join s want ev time now false 0 ETIMEDOUT).state = s ∧
      (Thread.timed_join s want ev time now false 0 0).ret
          = .ok (true, if want then some ev else none) ∧
      (Thread.timed_join s want ev time now false 0 0).state.running
          = false ∧
      (Thread.join (Thread.join s want ev 0).state want ev rc).ret
          = .error (.logicError .JoinNotStarted)) := by
  have hv : ¬(time.tv_sec < 0 ∨ time.tv_nsec < 0 ∨
      time.tv_nsec ≥ NSEC_PER_SEC) := by
    simp only [NSEC_PER_SEC] at *
    omega
  refine ⟨?_, ?_, ?_⟩
  · intro hd
    refine ⟨?_, ?_, ?_⟩ <;>
      simp [Thread.join, Thread.try_join, Thread.timed_join, hd]
  · intro hj hr
    refine ⟨?_, ?_, ?_⟩ <;>
      simp [Thread.join, Thread.try_join, Thread.timed_join, hj, hr]
  · intro hj hr
    refine ⟨?_, ?_, ?_, ?_, ?_, ?_, ?_, ?_, ?_, ?_, ?_, ?_⟩ <;>
      simp [Thread.join, Thread.try_join, Thread.timed_join, hj, hr, hv,
        EBUSY, ETIMEDOUT]

theorem C9_join_state_machine_witness :
    (0 ≤ t0.tv_sec ∧ 0 ≤ t0.tv_nsec ∧ t0.tv_nsec < NSEC_PER_SEC) ∧
    (Thread.join ⟨false, .DETACHED⟩ true 9 0
        = ⟨.error (.logicError .JoinDetached), ⟨false, .DETACHED⟩, []⟩ ∧
      Thread.join ⟨false, .JOINABLE⟩ true 9 0
        = ⟨.error (.logicError .JoinNotStarted), ⟨false, .JOINABLE⟩, []⟩ ∧
      (Thread.try_join ⟨true, .JOINABLE⟩ true 9 EBUSY).ret
        = .ok (false, none) ∧
      (Thread.join (Thread.join ⟨true, .JOINABLE⟩ true 9 0).state true 9
          0).ret = .error (.logicError .JoinNotStarted)) :=
  ⟨⟨by decide, by decide, by decide⟩,
    by
      have hd := (C9_join_state_machine ⟨false, .DETACHED⟩ true 9 t0 now0 0
        ⟨by decide, by decide, by decide⟩).1 rfl
      have hn := ((C9_join_state_machine ⟨false, .JOINABLE⟩ true 9 t0 now0 0
        ⟨by decide, by decide, by decide⟩).2.1 rfl rfl)
      have hr := ((C9_join_state_machine ⟨true, .JOINABLE⟩ true 9 t0 now0 0
        ⟨by decide, by decide, by decide⟩).2.2 rfl rfl)
      exact ⟨hd.1, hn.1, hr.2.2.1, hr.2.2.2.2.2.2.2.2.2.2.2⟩⟩

/-- C10 counterexample: in `Semaphore::timedwait`, a failing `gettimeofday`
inside the deadline computation raises a `std::system_error` while
`thread_queue` is still untouched — so a SystemError can be raised without
leaving `queue_depth` incremented, and an error other than DoubleAcquire
and InvalidArgument is detected before `queue_depth` is touched. -/
theorem C10_gettimeofday_error_before_queue :
    (Semaphore.timedwait freshSem 7 t0 now0 true 14 false 0).ret
        = .error (.systemError "gettimeofday" 14) ∧
    (Semaphore.timedwait freshSem 7 t0 now0 true 14 false 0).state.thread_queue
        = 0 ∧
    freshSem.thread_queue = 0 :=
  ⟨rfl, rfl, rfl⟩

/-- C10 (amended): in every Counting Permit acquire variant, a SystemError
from the native acquire call itself (`sem_wait` / `sem_timedwait`) leaves
`thread_queue` permanently incremented by one — the count is decremented
only on the success and contended/expired paths — while DoubleAcquire,
InvalidArgument and, in the timed variant, a SystemError from the deadline
computation's `gettimeofday` are all detected before `thread_queue` is
touched. -/
theorem C10_queue_depth_leak (s : Semaphore) (thread errno gerrno : Nat)
    (time : Timespec) (now : Timeval)
    (hfree : s.locking_threads thread = false)
    (hq : s.thread_queue + 1 < U32)
    (hvalid : 0 ≤ time.tv_sec ∧ 0 ≤ time.tv_nsec ∧
      time.tv_nsec < NSEC_PER_SEC)
    (herr : errno ≠ EAGAIN ∧ errno ≠ ETIMEDOUT) :
    ((Semaphore.wait s thread true errno).ret
        = .error (.systemError "sem_wait" errno) ∧
      (Semaphore.wait s thread true errno).state.thread_queue
        = s.thread_queue + 1) ∧
    ((Semaphore.trywait s thread true errno).ret
        = .error (.systemError "sem_wait" errno) ∧
      (Semaphore.trywait s thread true errno).state.thread_queue
        = s.thread_queue + 1) ∧
    ((Semaphore.timedwait s thread time now false 0 true errno).ret
        = .error (.systemError "sem_wait" errno) ∧
      (Semaphore.timedwait s thread time now false 0 true
          errno).state.thread_queue = s.thread_queue + 1) ∧
    ((Semaphore.wait s thread false 0).state.thread_queue
        = s.thread_queue ∧
      (Semaphore.trywait s thread true EAGAIN).state.thread_queue
        = s.thread_queue ∧
      (Semaphore.trywait s thread false 0).state.thread_queue
        = s.thread_queue ∧
      (Semaphore.timedwait s thread time now false 0 true
          ETIMEDOUT).state.thread_queue = s.thread_queue ∧
      (Semaphore.timedwait s thread time now false 0 false
          0).state.thread_queue = s.thread_queue) ∧
    (∀ (s2 : Semaphore) (t2 : Nat) (f : Bool) (e : Nat),
      s2.locking_threads t2 = true →
      (Semaphore.wait s2 t2 f e).state = s2 ∧
      (Semaphore.trywait s2 t2 f e).state = s2 ∧
      (Semaphore.timedwait s2 t2 time now false 0 f e).state = s2) ∧
    (∀ (bad : Timespec), bad.tv_nsec < 0 →
      (Semaphore.timedwait s thread bad now false 0 false 0).ret
          = .error (.invalidArgument "invalid timespec") ∧
      (Semaphore.timedwait s thread bad now false 0 false 0).state = s) ∧
    ((Semaphore.timedwait s thread time now true gerrno false 0).ret
        = .error (.systemError "gettimeofday" gerrno) ∧
      (Semaphore.timedwait s thread time now true gerrno false 0).state
        = s) := by
  have hv : ¬(time.tv_sec < 0 ∨ time.tv_nsec < 0 ∨
      time.tv_nsec ≥ NSEC_PER_SEC) := by
    simp only [NSEC_PER_SEC] at *
    omega
  have hsq := u32succ_eq hq
  have hps : u32pred (u32succ s.thread_queue) = s.thread_queue :=
    u32pred_u32succ (by omega)
  refine ⟨?_, ?_, ?_, ?_, ?_, ?_, ?_⟩
  · simp [Semaphore.wait, hfree, hsq]
  · simp [Semaphore.trywait, hfree, herr.1, hsq]
  · simp [Semaphore.timedwait, pthread_timeout, hv, hfree, herr.2, hsq]
  · refine ⟨?_, ?_, ?_, ?_, ?_⟩ <;>
      simp [Semaphore.wait, Semaphore.trywait, Semaphore.timedwait,
        pthread_timeout, hv, hfree, hps, EAGAIN, ETIMEDOUT]
  · intro s2 t2 f e h2
    refine ⟨?_, ?_, ?_⟩ <;>
      simp [Semaphore.wait, Semaphore.trywait, Semaphore.timedwait, h2]
  · intro bad hbad
    have hb : bad.tv_sec < 0 ∨ bad.tv_nsec < 0 ∨
        bad.tv_nsec ≥ NSEC_PER_SEC := by
      right
      left
      exact hbad
    refine ⟨?_, ?_⟩ <;>
      simp [Semaphore.timedwait, pthread_timeout, hb, hfree]
  · refine ⟨?_, ?_⟩ <;>
      simp [Semaphore.timedwait, pthread_timeout, hv, hfree]

theorem C10_queue_depth_leak_witness :
    (freshSem.locking_threads 7 = false ∧ freshSem.thread_queue + 1 < U32 ∧
      (0 ≤ t0.tv_sec ∧ 0 ≤ t0.tv_nsec ∧ t0.tv_nsec < NSEC_PER_SEC) ∧
      (EINTR ≠ EAGAIN ∧ EINTR ≠ ETIMEDOUT)) ∧
    ((Semaphore.wait freshSem 7 true EINTR).ret
        = .error (.systemError "sem_wait" EINTR) ∧
      (Semaphore.wait freshSem 7 true EINTR).state.thread_queue
        = freshSem.thread_queue + 1 ∧
      (Semaphore.timedwait freshSem 7 t0 now0 true 14 false 0).state
        = freshSem) :=
  ⟨⟨rfl, by decide, ⟨by decide, by decide, by decide⟩,
      ⟨by decide, by decide⟩⟩,
    by
      have h := C10_queue_depth_leak freshSem 7 EINTR 14 t0 now0 rfl
        (by decide) ⟨by decide, by decide, by decide⟩
        ⟨by decide, by decide⟩
      exact ⟨h.1.1, h.1.2, h.2.2.2.2.2.2.2⟩⟩

end Threading
